import Mathlib

/-!
Shallow embedding of the mini-chatbot NestJS GraphQL gateway:
the RAG answer-generation flow (rag.service.ts), the pluggable LLM
providers (llm.provider.ts, ollama.provider.ts, the mock provider in
chat.resolver.ts) and the chat message persistence and pagination logic
(chat.service.ts, chat.resolver.ts).

External collaborators (the Chroma vector store, the Prisma relational
store, HTTP endpoints) are modelled as explicit oracle values passed into
the embedded functions; JavaScript string and array idioms (truthiness,
optional chaining, negative indexing) are modelled by dedicated helpers.
-/

/-- Model of JavaScript String.prototype.toLowerCase, character by character
(adequate for the ASCII keywords the code matches on). -/
def jsToLower (s : String) : String := ⟨s.data.map Char.toLower⟩

/-- Model of JavaScript String.prototype.includes: sub occurs as a contiguous
substring of s. -/
def jsIncludes (s sub : String) : Bool := decide (sub.data <:+: s.data)

/-- Model of the JavaScript expression `opt?.field || dflt` for string values:
a missing value and the empty string (both falsy) yield the default. -/
def jsOrString (v : Option String) (d : String) : String :=
  match v with
  | none => d
  | some s => if s = "" then d else s

/-- Model of the JavaScript expression `v?.field || undefined` over an optional
string: a missing value and the empty string both give undefined. -/
def jsOrUndefined (v : Option String) : Option String :=
  v.bind (fun s => if s = "" then none else some s)

/-- JavaScript array indexing with a possibly negative index (out of range,
including negative, gives undefined). -/
def jsIndex {α : Type} (l : List α) (i : Int) : Option α :=
  if i < 0 then none else l.get? i.toNat

/-- Model of JavaScript Array.prototype.join with a separator. -/
def jsJoin (sep : String) : List String → String
  | [] => ""
  | [a] => a
  | a :: rest => a ++ sep ++ jsJoin sep rest

/-- Role-tagged chat message handed to an LLM provider. -/
structure ChatMsg where
  role : String
  content : String
deriving DecidableEq

/-- Provider response record (llm.provider.ts, interface LLMResponse). -/
structure LLMResponse where
  content : String
  tokensUsed : Nat
deriving DecidableEq

/-- A language-model provider capability (llm.provider.ts, interface
LLMProvider): generateCompletion over a message list and a temperature; a
thrown JavaScript error is modelled as Except.error carrying the message. -/
def LLMProv : Type := List ChatMsg → ℚ → Except String LLMResponse

/-- Metadata object stored alongside one chunk in the vector store; fields can
be absent, modelling a partial JavaScript object. -/
structure ChromaMeta where
  filename : Option String
  document_index : Option Nat
deriving DecidableEq

/-- Outcome of the ChromaDB interaction inside retrieveRelevantChunks: either
some awaited step threw (client not initialized, collection missing, network
error, malformed payload access), or the query returned with the parallel
arrays documents[0] and metadatas[0] plus the optional distances field. -/
inductive ChromaOutcome where
  | err : ChromaOutcome
  | res (documents : Option (List String)) (metadatas : List (Option ChromaMeta))
      (distances : Option (List ℚ)) : ChromaOutcome

/-- Ephemeral retrieved-chunk record built by retrieveRelevantChunks
(rag.service.ts lines 57-62). The source stores the metadata field
document_index under the key documentId. A score of none models a JavaScript
undefined (distances array shorter than the documents array). -/
structure RetrievedChunk where
  content : String
  filename : String
  documentId : Nat
  score : Option ℚ
deriving DecidableEq

/-- Per-bot collection identifier (rag.service.ts line 36). -/
def chromaCollectionName (botId : String) : String := "bot_" ++ botId

/-- Embedding of RAGService.retrieveRelevantChunks (rag.service.ts lines
29-67). botId, query and topK only shape the request sent to the store; the
store's behaviour is supplied as the ChromaOutcome oracle. Every failure path
of the source (caught exception, missing documents[0], empty documents[0])
returns the empty list; otherwise each document at position index is mapped to
a RetrievedChunk exactly as in the source, with `?.filename || 'unknown'`,
`?.document_index || 0` and the distances-presence check for the score.
chunkAt is the mapping applied at one position (the arrow function of
rag.service.ts lines 57-62). -/
def chunkAt (metadatas : List (Option ChromaMeta)) (distances : Option (List ℚ))
    (index : Nat) (doc : String) : RetrievedChunk :=
  { content := doc
    filename :=
      jsOrString (((metadatas.get? index).bind id).bind ChromaMeta.filename) "unknown"
    documentId :=
      (((metadatas.get? index).bind id).bind ChromaMeta.document_index).getD 0
    score :=
      match distances with
      | none => some (1/2)
      | some ds => ds.get? index }

def retrieveRelevantChunks (botId query : String) (topK : Nat)
    (outcome : ChromaOutcome) : List RetrievedChunk :=
  match outcome with
  | .err => []
  | .res documents metadatas distances =>
    match documents with
    | none => []
    | some docs =>
      if docs.length = 0 then []
      else docs.mapIdx (chunkAt metadatas distances)

/-- Context block string built from the retrieved chunks (rag.service.ts lines
82-84): `From <filename>: <content>` blocks joined by blank lines. -/
def ragContext (relevantChunks : List RetrievedChunk) : String :=
  jsJoin "\n\n"
    (relevantChunks.map (fun chunk => "From " ++ chunk.filename ++ ": " ++ chunk.content))

/-- The context-embedding system prompt template (rag.service.ts lines 87-92). -/
def contextSystemPrompt (context : String) : String :=
  "You are a helpful customer support assistant. Use the following context to answer the user\x27s question. Be specific and helpful.\n\nContext:\n"
    ++ context
    ++ "\n\nPlease provide a helpful answer based ONLY on the context above. If the context doesn\x27t contain the answer, say \"I don\x27t have information about that in my knowledge base.\""

/-- The fixed generic fallback system prompt used when no context was
retrieved (rag.service.ts line 93). -/
def fallbackSystemPrompt : String :=
  "You are a helpful customer support assistant. The user is asking about shipping options, but I couldn\x27t find relevant information in the knowledge base. Please provide a general helpful response."

/-- System prompt selection (rag.service.ts lines 86-93). The source branches
on the JavaScript truthiness of the context string, i.e. on its nonemptiness. -/
def ragSystemPrompt (relevantChunks : List RetrievedChunk) : String :=
  let context := ragContext relevantChunks
  if context = "" then fallbackSystemPrompt else contextSystemPrompt context

/-- Provider message sequence assembled by generateAnswer (rag.service.ts
lines 95-99): system prompt first, then the supplied history in order, then
the current user query last. -/
def ragMessages (relevantChunks : List RetrievedChunk)
    (conversationHistory : List ChatMsg) (query : String) : List ChatMsg :=
  ⟨"system", ragSystemPrompt relevantChunks⟩ :: conversationHistory ++ [⟨"user", query⟩]

/-- Output citation record (rag.service.ts lines 104-108). -/
structure Citation where
  documentId : String
  filename : String
  score : Option ℚ
deriving DecidableEq

/-- Result record of generateAnswer (rag.service.ts lines 112-116). -/
structure RAGResult where
  answer : String
  citations : List Citation
  tokensUsed : Nat
deriving DecidableEq

/-- Citation built from one retrieved chunk (rag.service.ts lines 104-108):
documentId is the string `doc_` followed by the chunk's stored document index,
filename and score are copied unchanged. -/
def mkCitation (chunk : RetrievedChunk) : Citation :=
  { documentId := "doc_" ++ toString chunk.documentId
    filename := chunk.filename
    score := chunk.score }

/-- Embedding of RAGService.generateAnswer (rag.service.ts lines 69-117):
retrieve chunks (never failing), assemble the message sequence, invoke the
provider with the caller's temperature, and shape answer, citations and token
usage. A provider failure propagates unchanged. -/
def generateAnswer (llm : LLMProv) (botId query : String)
    (conversationHistory : List ChatMsg) (temperature : ℚ) (topK : Nat)
    (outcome : ChromaOutcome) : Except String RAGResult :=
  let relevantChunks := retrieveRelevantChunks botId query topK outcome
  match llm (ragMessages relevantChunks conversationHistory query) temperature with
  | .error e => .error e
  | .ok response =>
      .ok { answer := response.content
            citations := relevantChunks.map mkCitation
            tokensUsed := response.tokensUsed }

namespace OllamaProvider

/-- Ordered preference list of OllamaProvider.getAvailableModel
(ollama.provider.ts lines 67-74). -/
def preferredModels : List String :=
  ["llama2:7b", "llama2", "mistral", "phi", "mistral:7b", "phi:2.7b"]

/-- Embedding of OllamaProvider.getAvailableModel (ollama.provider.ts lines
60-87) as a function of the discovered model list: exact `llama2:7b` match
first, then the first member of the preference list that is available, then
the first discovered model, then the hard-coded default. -/
def getAvailableModel (availableModels : List String) : String :=
  if availableModels.contains "llama2:7b" then "llama2:7b"
  else
    match preferredModels.find? (fun m => availableModels.contains m) with
    | some m => m
    | none =>
      match availableModels with
      | [] => "llama2:7b"
      | m :: _ => m

/-- Decoding options of the generation request OllamaProvider.callOllama sends
(ollama.provider.ts lines 122-127). -/
structure OllamaOptions where
  temperature : ℚ
  num_predict : Nat
  top_k : Nat
  top_p : ℚ
deriving DecidableEq

/-- Options object built by callOllama (ollama.provider.ts lines 122-127): the
temperature sent to the inference endpoint is
`Math.max(0.1, Math.min(1.0, temperature))`. -/
def callOptions (temperature : ℚ) : OllamaOptions :=
  { temperature := max (1/10) (min 1 temperature)
    num_predict := 800
    top_k := 40
    top_p := 9/10 }

end OllamaProvider

namespace MockLLMProvider

/-- Canned answer: shipping cost (chat.resolver.ts line 162). -/
def shippingCostResponse : String :=
  "Based on our shipping policy: Standard shipping is free on orders over $50, otherwise it\x27s $4.99. Express shipping costs $9.99, and overnight shipping is $19.99."

/-- Canned answer: shipping time (chat.resolver.ts line 165). -/
def shippingTimeResponse : String :=
  "Our delivery times are: Standard shipping takes 3-5 business days, Express shipping takes 1-2 business days, and Overnight shipping arrives the next business day."

/-- Canned answer: free shipping (chat.resolver.ts line 168). -/
def shippingFreeResponse : String :=
  "Yes, we offer free standard shipping on all orders over $50. The free shipping is applied automatically at checkout."

/-- Canned answer: general shipping (chat.resolver.ts line 170). -/
def shippingGeneralResponse : String :=
  "We offer several shipping options: Standard (3-5 days), Express (1-2 days), and Overnight (next day). Free shipping is available on orders over $50."

/-- Canned answer: return time (chat.resolver.ts line 176). -/
def returnTimeResponse : String :=
  "You can return items within 30 days of purchase. Refunds are typically processed within 5-7 business days after we receive your return."

/-- Canned answer: return condition (chat.resolver.ts line 179). -/
def returnConditionResponse : String :=
  "To return an item, it must be in its original condition with all tags attached and in the original packaging. Please include your order number with the return."

/-- Canned answer: return cost (chat.resolver.ts line 182). -/
def returnCostResponse : String :=
  "Return shipping is free for defective or incorrect items. For other returns, you\x27re responsible for return shipping costs unless you purchased return shipping protection."

/-- Canned answer: general returns (chat.resolver.ts line 184). -/
def returnGeneralResponse : String :=
  "Our return policy allows returns within 30 days of purchase. Items must be in original condition with tags attached. Refunds are processed within 5-7 business days."

/-- Canned answer: contact by phone (chat.resolver.ts line 190). -/
def contactPhoneResponse : String :=
  "You can reach our customer service team at 1-800-123-4567. Our phone lines are open Monday through Friday from 9 AM to 6 PM EST."

/-- Canned answer: contact by email (chat.resolver.ts line 193). -/
def contactEmailResponse : String :=
  "You can email us at support@company.com. We typically respond to emails within 24 hours during business days."

/-- Canned answer: service hours (chat.resolver.ts line 196). -/
def contactHoursResponse : String :=
  "Our customer service hours are Monday to Friday, 9:00 AM to 6:00 PM EST. We\x27re closed on weekends and major holidays."

/-- Canned answer: general contact (chat.resolver.ts line 198). -/
def contactGeneralResponse : String :=
  "You can contact us by phone at 1-800-123-4567, by email at support@company.com, or through live chat on our website during business hours."

/-- Canned answer: products (chat.resolver.ts line 203). -/
def productResponse : String :=
  "I\x27d be happy to help you with product information. Could you please specify which product you\x27re asking about? Our knowledgeable staff can provide detailed specifications and availability."

/-- Canned answer: orders and tracking (chat.resolver.ts line 207). -/
def orderResponse : String :=
  "To check your order status or track a package, please have your order number ready and visit the \x27Order Status\x27 page on our website, or contact our customer service team."

/-- Canned answer: payment methods (chat.resolver.ts line 211). -/
def paymentResponse : String :=
  "We accept all major credit cards (Visa, MasterCard, American Express, Discover), PayPal, and Apple Pay for your convenience."

/-- Generic acknowledgement echoing the user's message (chat.resolver.ts line
215). -/
def defaultResponse (userMessage : String) : String :=
  "I understand you\x27re asking about \"" ++ userMessage
    ++ "\". In a production environment with OpenAI GPT-4, I would provide a comprehensive answer based on our company knowledge base. For now, I recommend checking our website\x27s help section or contacting customer service for detailed information about this topic."

/-- Embedding of MockLLMProvider.generateContextAwareResponse
(chat.resolver.ts lines 144-216): case-insensitive keyword matching on the
last user message, case-sensitive keyword matching on the system prompt, in
the fixed priority order of the source. -/
def generateContextAwareResponse (userMessage systemPrompt : String) : String :=
  let lowerMessage := jsToLower userMessage
  let hasShippingInfo := jsIncludes systemPrompt "shipping"
    || jsIncludes systemPrompt "delivery" || jsIncludes systemPrompt "ship"
  let hasReturnInfo := jsIncludes systemPrompt "return"
    || jsIncludes systemPrompt "refund" || jsIncludes systemPrompt "exchange"
  let hasContactInfo := jsIncludes systemPrompt "contact"
    || jsIncludes systemPrompt "phone" || jsIncludes systemPrompt "email"
    || jsIncludes systemPrompt "support"
  if jsIncludes lowerMessage "shipping" || jsIncludes lowerMessage "delivery"
      || hasShippingInfo then
    if jsIncludes lowerMessage "cost" || jsIncludes lowerMessage "price"
        || jsIncludes lowerMessage "how much" then shippingCostResponse
    else if jsIncludes lowerMessage "time" || jsIncludes lowerMessage "long"
        || jsIncludes lowerMessage "when" then shippingTimeResponse
    else if jsIncludes lowerMessage "free" then shippingFreeResponse
    else shippingGeneralResponse
  else if jsIncludes lowerMessage "return" || jsIncludes lowerMessage "refund"
      || hasReturnInfo then
    if jsIncludes lowerMessage "how long" || jsIncludes lowerMessage "time"
        || jsIncludes lowerMessage "when" then returnTimeResponse
    else if jsIncludes lowerMessage "condition" || jsIncludes lowerMessage "how to" then
      returnConditionResponse
    else if jsIncludes lowerMessage "cost" || jsIncludes lowerMessage "free return" then
      returnCostResponse
    else returnGeneralResponse
  else if jsIncludes lowerMessage "contact" || jsIncludes lowerMessage "phone"
      || jsIncludes lowerMessage "email" || jsIncludes lowerMessage "call"
      || hasContactInfo then
    if jsIncludes lowerMessage "phone" || jsIncludes lowerMessage "call"
        || jsIncludes lowerMessage "number" then contactPhoneResponse
    else if jsIncludes lowerMessage "email" then contactEmailResponse
    else if jsIncludes lowerMessage "hour" || jsIncludes lowerMessage "time"
        || jsIncludes lowerMessage "when" then contactHoursResponse
    else contactGeneralResponse
  else if jsIncludes lowerMessage "product" || jsIncludes lowerMessage "item" then
    productResponse
  else if jsIncludes lowerMessage "order" || jsIncludes lowerMessage "track" then
    orderResponse
  else if jsIncludes lowerMessage "payment" || jsIncludes lowerMessage "pay" then
    paymentResponse
  else defaultResponse userMessage

/-- Embedding of MockLLMProvider.generateCompletion (chat.resolver.ts lines
218-235): last message content (or empty) as user message, first message
content (or empty) as system prompt; the simulated 200ms latency is
timing-only and not modelled; the temperature argument is unused by the
source. Token usage is floor(length/4) + 50. -/
def generateCompletion (messages : List ChatMsg) (temperature : ℚ) : LLMResponse :=
  let userMessage := jsOrString (messages.getLast?.map ChatMsg.content) ""
  let systemPrompt := jsOrString (messages.head?.map ChatMsg.content) ""
  let content := generateContextAwareResponse userMessage systemPrompt
  { content := content, tokensUsed := content.length / 4 + 50 }

/-- The mock provider as an LLMProv value (it never fails). -/
def asProvider : LLMProv := fun messages temperature =>
  .ok (generateCompletion messages temperature)

end MockLLMProvider

namespace ChatService

/-- Persisted message row (prisma Message; chat.service.ts). The GraphQL
field-format mapping mapPrismaMessageToGraphQL (date to ISO string, null
tokensUsed to undefined) is value-preserving on the fields the claims are
about and is not modelled separately; createdAt is an abstract creation time. -/
structure StoredMessage where
  id : String
  role : String
  content : String
  tokensUsed : Option Nat
  createdAt : Nat
deriving DecidableEq

/-- Result shape of getMessagesPaginated (graphql.types MessageConnection). -/
structure MessageConnection where
  edges : List StoredMessage
  nextCursor : Option String
deriving DecidableEq

/-- Prisma findMany over a session's rows ordered by createdAt descending with
an optional cursor and a take count (chat.service.ts lines 83-88). rows is the
session's message list in ascending creation order (the Message data-model
invariant), so the descending result set is its reverse. Prisma positions the
window at the cursor row inclusively (no skip is specified); a cursor that
matches no row yields no rows. -/
def findManyDesc (rows : List StoredMessage) (cursor : Option String)
    (tk : Nat) : List StoredMessage :=
  let descRows := rows.reverse
  (match cursor with
   | none => descRows
   | some c => descRows.dropWhile (fun m => m.id != c)).take tk

/-- Embedding of ChatService.getMessagesPaginated (chat.service.ts lines
78-97): fetch limit+1 rows descending from the cursor, detect a next page by
overflow, drop the extra row from the edges, reverse to ascending order, and
compute nextCursor from the row at JavaScript index length-2 of the fetched
descending rows (`messages[messages.length - 2]?.id || undefined`). -/
def getMessagesPaginated (rows : List StoredMessage) (limit : Nat)
    (cursor : Option String) : MessageConnection :=
  let messages := findManyDesc rows cursor (limit + 1)
  let hasNextPage := decide (messages.length > limit)
  let edges := if hasNextPage then messages.dropLast else messages
  { edges := edges.reverse
    nextCursor :=
      if hasNextPage then
        jsOrUndefined ((jsIndex messages ((messages.length : Int) - 2)).map StoredMessage.id)
      else none }

/-- Embedding of ChatService.getMessages (chat.service.ts lines 68-76): the
session's rows ordered by createdAt ascending, cut to the optional take
limit (an absent limit returns all rows). -/
def getMessages (rows : List StoredMessage) (limit : Option Nat) : List StoredMessage :=
  match limit with
  | none => rows
  | some n => rows.take n

end ChatService

namespace ChatResolver

/-- Bot temperature defaulting in the chat mutation (chat.resolver.ts line
75): `bot.temperature || 0.3`, where a missing and a zero temperature (both
JavaScript falsy) fall back to 0.3. -/
def botTemperatureOrDefault (t : Option ℚ) : ℚ :=
  match t with
  | none => 3/10
  | some v => if v = 0 then 3/10 else v

/-- Conversation history the chat mutation builds before persisting the new
user message (chat.resolver.ts lines 59-63): the first ten rows in ascending
creation order, projected to role/content pairs. -/
def chatConversationHistory (rows : List ChatService.StoredMessage) : List ChatMsg :=
  (ChatService.getMessages rows (some 10)).map (fun msg => ⟨msg.role, msg.content⟩)

/-- Embedding of the ChatResolver.chat mutation body after the session and bot
lookups succeed (chat.resolver.ts lines 59-86): build the history from the
current rows, persist the user message, call generateAnswer, persist the
assistant message. The session's stored messages are modelled as a list in
ascending creation order to which freshly created rows are appended; uid/ut
and aid/ta are the identifier and creation time the store assigns to the new
user and assistant rows. -/
def chat (llm : LLMProv) (botId : String) (botTemperature : Option ℚ)
    (rows : List ChatService.StoredMessage) (message : String) (topK : Nat)
    (outcome : ChromaOutcome) (uid aid : String) (ut ta : Nat) :
    Except String (RAGResult × List ChatService.StoredMessage) :=
  let conversationHistory := chatConversationHistory rows
  let rows1 := rows ++ [⟨uid, "user", message, none, ut⟩]
  match generateAnswer llm botId message conversationHistory
      (botTemperatureOrDefault botTemperature) topK outcome with
  | .error e => .error e
  | .ok result =>
      .ok (result, rows1 ++ [⟨aid, "assistant", result.answer, some result.tokensUsed, ta⟩])

end ChatResolver

/-- Session fixture for the pagination boundary scenario: message Mi has
identifier `Mi` and creation time i. -/
def mkMsg (i : Nat) : ChatService.StoredMessage :=
  ⟨"M" ++ toString i, "user", "content " ++ toString i, none, i⟩

/-- The ten messages M1..M10 in ascending creation order. -/
def tenMessages : List ChatService.StoredMessage :=
  (List.range 10).map (fun i => mkMsg (i + 1))

/-- Fixture: a store response with two documents, one full metadata record and
one missing record, and distances present. -/
def c5Outcome : ChromaOutcome :=
  .res (some ["alpha", "beta"]) [some ⟨some "a.txt", some 3⟩, none] (some [1/4, 1/8])

/-- Provider that always succeeds with a fixed answer. -/
def okLLM : LLMProv := fun _ _ => .ok ⟨"ans", 7⟩

/-- Provider that always fails with a fixed message. -/
def failLLM : LLMProv := fun _ _ => .error "provider down"

/-- Probe provider that reports through tokensUsed whether the temperature it
receives lies in the valid generation range [0.1, 1]. -/
def rangeProbeLLM : LLMProv := fun _ t =>
  .ok ⟨"", if 1/10 ≤ t ∧ t ≤ 1 then 1 else 0⟩

/-- Probe provider that reports through tokensUsed whether the temperature it
receives equals the given value. -/
def tempProbeLLM (t0 : ℚ) : LLMProv := fun _ t =>
  .ok ⟨"", if t = t0 then 1 else 0⟩

/-- The top-level topic keywords of the mock provider's cascade over the last
user message (chat.resolver.ts lines 160-211): the guards of the shipping,
returns, contact, product, order and payment branches. -/
def mockTopicKeywords : List String :=
  ["shipping", "delivery", "return", "refund", "contact", "phone", "email",
   "call", "product", "item", "order", "track", "payment", "pay"]

/-- The context keywords the mock provider matches (case-sensitively) against
the system prompt (chat.resolver.ts lines 148-157). -/
def mockSystemKeywords : List String :=
  ["shipping", "delivery", "ship", "return", "refund", "exchange", "contact",
   "phone", "email", "support"]

/-- C1: evaluation of getMessagesPaginated on the spec's boundary scenario
(messages M1..M10). The first page with limit 3 and no cursor returns
(M8,M9,M10) ascending as the spec says, but its nextCursor is M8 — the
second-to-last fetched row — not M7 as the spec requires; following the
code's own cursor M8 then returns (M6,M7,M8), repeating M8. A call with
cursor M7 returns (M5,M6,M7) but nextCursor M5 instead of M4. limit 20
returns all ten rows with no nextCursor, as the spec says. -/
theorem c1_getMessagesPaginated_boundary :
    (ChatService.getMessagesPaginated tenMessages 3 none).edges
        = [mkMsg 8, mkMsg 9, mkMsg 10] ∧
    (ChatService.getMessagesPaginated tenMessages 3 none).nextCursor = some "M8" ∧
    (ChatService.getMessagesPaginated tenMessages 3 none).nextCursor ≠ some "M7" ∧
    (ChatService.getMessagesPaginated tenMessages 3 (some "M7")).edges
        = [mkMsg 5, mkMsg 6, mkMsg 7] ∧
    (ChatService.getMessagesPaginated tenMessages 3 (some "M7")).nextCursor = some "M5" ∧
    (ChatService.getMessagesPaginated tenMessages 3 (some "M8")).edges
        = [mkMsg 6, mkMsg 7, mkMsg 8] ∧
    (ChatService.getMessagesPaginated tenMessages 20 none).edges = tenMessages ∧
    (ChatService.getMessagesPaginated tenMessages 20 none).nextCursor = none := by
  decide

/-- C9: the local-model provider's model selection order: exact preferred
match `llama2:7b` first, then the first hit in the ordered fallback list,
then the first discovered model when the discovery list is non-empty, and the
hard-coded default `llama2:7b` when it is empty. -/
theorem c9_getAvailableModel_order (availableModels : List String) :
    ("llama2:7b" ∈ availableModels →
      OllamaProvider.getAvailableModel availableModels = "llama2:7b") ∧
    (∀ m, "llama2:7b" ∉ availableModels →
      OllamaProvider.preferredModels.find? (fun p => availableModels.contains p) = some m →
      OllamaProvider.getAvailableModel availableModels = m) ∧
    ((∀ p ∈ OllamaProvider.preferredModels, p ∉ availableModels) →
      ∀ m ms, availableModels = m :: ms →
      OllamaProvider.getAvailableModel availableModels = m) ∧
    (availableModels = [] →
      OllamaProvider.getAvailableModel availableModels = "llama2:7b") := by
  refine ⟨?_, ?_, ?_, ?_⟩
  · intro h
    simp [OllamaProvider.getAvailableModel, h]
  · intro m h hfind
    have hc : availableModels.contains "llama2:7b" = false := by simpa using h
    unfold OllamaProvider.getAvailableModel
    rw [hc]
    simp only [Bool.false_eq_true, if_false]
    rw [hfind]
  · intro h m ms hcons
    have hmem : "llama2:7b" ∉ availableModels := h "llama2:7b" (by decide)
    have hc : availableModels.contains "llama2:7b" = false := by simpa using hmem
    have hfind : OllamaProvider.preferredModels.find?
        (fun p => availableModels.contains p) = none := by
      rw [List.find?_eq_none]
      intro p hp
      simpa using h p hp
    subst hcons
    unfold OllamaProvider.getAvailableModel
    rw [hc]
    simp only [Bool.false_eq_true, if_false]
    rw [hfind]
  · intro h
    subst h
    decide

/-- Witness for C9: each of the four selection branches at a concrete
discovery list. -/
theorem c9_getAvailableModel_order_witness :
    OllamaProvider.getAvailableModel ["llama2:7b", "extra"] = "llama2:7b" ∧
    OllamaProvider.getAvailableModel ["other", "mistral"] = "mistral" ∧
    OllamaProvider.getAvailableModel ["other", "second"] = "other" ∧
    OllamaProvider.getAvailableModel [] = "llama2:7b" := by
  refine ⟨?_, ?_, ?_, ?_⟩
  · exact (c9_getAvailableModel_order ["llama2:7b", "extra"]).1 (by decide)
  · exact (c9_getAvailableModel_order ["other", "mistral"]).2.1 "mistral" (by decide) (by decide)
  · exact (c9_getAvailableModel_order ["other", "second"]).2.2.1 (by decide) "other" ["second"] rfl
  · exact (c9_getAvailableModel_order []).2.2.2 rfl

/-- The result list of retrieveRelevantChunks on a nonempty documents array is
the indexed map of chunkAt over the documents. -/
theorem retrieveRelevantChunks_getElem (botId query : String) (topK : Nat)
    (docs : List String) (metas : List (Option ChromaMeta))
    (dists : Option (List ℚ)) (hlen : docs.length ≠ 0) (i : Nat)
    (hi : i < (retrieveRelevantChunks botId query topK (.res (some docs) metas dists)).length)
    (hd : i < docs.length) :
    (retrieveRelevantChunks botId query topK (.res (some docs) metas dists))[i]
      = chunkAt metas dists i docs[i] := by
  simp [retrieveRelevantChunks, hlen]

/-- C5: whenever generateAnswer succeeds, the citation list has exactly the
length of the retrieved-chunk list, preserves retrieval order position by
position, documentId is `doc_` followed by the chunk's stored document index,
and filename and score are copied unchanged. -/
theorem c5_citations_correspondence (llm : LLMProv) (botId query : String)
    (hist : List ChatMsg) (t : ℚ) (topK : Nat) (outcome : ChromaOutcome)
    (r : RAGResult)
    (h : generateAnswer llm botId query hist t topK outcome = .ok r) :
    r.citations.length = (retrieveRelevantChunks botId query topK outcome).length ∧
    ∀ i (hi : i < r.citations.length)
      (hc : i < (retrieveRelevantChunks botId query topK outcome).length),
      r.citations[i].documentId
          = "doc_" ++ toString (retrieveRelevantChunks botId query topK outcome)[i].documentId ∧
      r.citations[i].filename = (retrieveRelevantChunks botId query topK outcome)[i].filename ∧
      r.citations[i].score = (retrieveRelevantChunks botId query topK outcome)[i].score := by
  simp only [generateAnswer] at h
  cases hllm : llm (ragMessages (retrieveRelevantChunks botId query topK outcome) hist query) t with
  | error e => rw [hllm] at h; exact absurd h (by simp)
  | ok response =>
    rw [hllm] at h
    have hr : ({ answer := response.content,
                 citations := (retrieveRelevantChunks botId query topK outcome).map mkCitation,
                 tokensUsed := response.tokensUsed } : RAGResult) = r := by
      injection h
    subst hr
    refine ⟨by simp, ?_⟩
    intro i hi hc
    simp [mkCitation]

/-- Witness for C5: the citation correspondence evaluated on a concrete
two-chunk retrieval. -/
theorem c5_citations_correspondence_witness :
    (RAGResult.citations ⟨"ans",
        [⟨"doc_3", "a.txt", some (1/4)⟩, ⟨"doc_0", "unknown", some (1/8)⟩], 7⟩).length
      = (retrieveRelevantChunks "b" "q" 5 c5Outcome).length :=
  (c5_citations_correspondence okLLM "b" "q" [] 1 5 c5Outcome
    ⟨"ans", [⟨"doc_3", "a.txt", some (1/4)⟩, ⟨"doc_0", "unknown", some (1/8)⟩], 7⟩
    (by rfl)).1

/-- C6: when the store responds with N matches (in particular N < topK), the
retriever returns exactly N chunks in store order; a chunk's filename defaults
to `unknown` when its metadata record or filename field is absent, and its
score defaults to 1/2 when the store returns no distances field. -/
theorem c6_retriever_defaults (botId query : String) (topK : Nat)
    (docs : List String) (metas : List (Option ChromaMeta))
    (dists : Option (List ℚ)) (h : docs.length < topK) :
    (retrieveRelevantChunks botId query topK (.res (some docs) metas dists)).length
        = docs.length ∧
    ∀ i (hi : i < (retrieveRelevantChunks botId query topK (.res (some docs) metas dists)).length)
      (hd : i < docs.length),
      (retrieveRelevantChunks botId query topK (.res (some docs) metas dists))[i].content
          = docs[i] ∧
      ((((metas.get? i).bind id).bind ChromaMeta.filename) = none →
        (retrieveRelevantChunks botId query topK (.res (some docs) metas dists))[i].filename
            = "unknown") ∧
      (dists = none →
        (retrieveRelevantChunks botId query topK (.res (some docs) metas dists))[i].score
            = some (1/2)) := by
  by_cases hlen : docs.length = 0
  · rw [List.length_eq_zero] at hlen
    subst hlen
    exact ⟨by simp [retrieveRelevantChunks], by intro i hi hd; simp at hd⟩
  · constructor
    · simp [retrieveRelevantChunks, hlen]
    · intro i hi hd
      rw [retrieveRelevantChunks_getElem botId query topK docs metas dists hlen i hi hd]
      refine ⟨rfl, ?_, ?_⟩
      · intro hm
        unfold chunkAt
        rw [hm]
        rfl
      · intro hdist
        subst hdist
        rfl

/-- Witness for C6: a store returning two matches for topK 5, with one
metadata record missing and no distances field. -/
theorem c6_retriever_defaults_witness :
    (retrieveRelevantChunks "b" "q" 5
        (.res (some ["alpha", "beta"]) [some ⟨some "a.txt", some 3⟩, none] none)).length = 2 :=
  (c6_retriever_defaults "b" "q" 5 ["alpha", "beta"]
    [some ⟨some "a.txt", some 3⟩, none] none (by decide)).1

/-- C4: retrieval never fails: it returns the empty chunk list on a thrown
store error, a missing documents array and an empty documents array, after
which generateAnswer still succeeds (with the empty-context message sequence
and no citations) whenever the provider succeeds; a provider failure, in
contrast, propagates out of generateAnswer unchanged. -/
theorem c4_failure_semantics (botId query : String) (hist : List ChatMsg)
    (t : ℚ) (topK : Nat) (llm : LLMProv) (e : String) :
    retrieveRelevantChunks botId query topK .err = [] ∧
    (∀ metas dists, retrieveRelevantChunks botId query topK (.res none metas dists) = []) ∧
    (∀ metas dists, retrieveRelevantChunks botId query topK (.res (some []) metas dists) = []) ∧
    (∀ outcome,
      llm (ragMessages (retrieveRelevantChunks botId query topK outcome) hist query) t
          = .error e →
      generateAnswer llm botId query hist t topK outcome = .error e) ∧
    (∀ response,
      llm (ragMessages [] hist query) t = .ok response →
      generateAnswer llm botId query hist t topK .err
          = .ok ⟨response.content, [], response.tokensUsed⟩) := by
  refine ⟨rfl, fun _ _ => rfl, fun _ _ => by simp [retrieveRelevantChunks], ?_, ?_⟩
  · intro outcome hfail
    simp only [generateAnswer]
    rw [hfail]
  · intro response hok
    simp only [generateAnswer]
    rw [show retrieveRelevantChunks botId query topK .err = [] from rfl, hok]
    rfl

/-- Witness for C4: a concrete failing store with a succeeding provider, and a
concrete failing provider. -/
theorem c4_failure_semantics_witness :
    generateAnswer okLLM "b" "q" [] 1 5 .err = .ok ⟨"ans", [], 7⟩ ∧
    generateAnswer failLLM "b" "q" [] 1 5 .err = .error "provider down" := by
  constructor
  · exact (c4_failure_semantics "b" "q" [] 1 5 okLLM "unused").2.2.2.2 ⟨"ans", 7⟩ rfl
  · exact (c4_failure_semantics "b" "q" [] 1 5 failLLM "provider down").2.2.2.1 .err rfl

/-- C3 counterexample: generateAnswer called with temperature 5 hands the
provider the raw value 5, outside the valid generation range [0.1, 1]: the
range-probe provider observes an out-of-range temperature (tokensUsed 0), so
the temperature passed to generateCompletion is not clamped beforehand. -/
theorem c3_temperature_clamp_counterexample :
    generateAnswer rangeProbeLLM "b" "q" [] 5 5 .err = .ok ⟨"", [], 0⟩ ∧
    ¬ ((1 : ℚ)/10 ≤ 5 ∧ (5 : ℚ) ≤ 1) := by
  have hneg : ¬ ((1 : ℚ)/10 ≤ 5 ∧ (5 : ℚ) ≤ 1) := by norm_num
  refine ⟨?_, hneg⟩
  simp [generateAnswer, rangeProbeLLM, retrieveRelevantChunks, hneg]

/-- C3 amended: the Answer Generator passes the caller's temperature to the
provider's generateCompletion unchanged (the probe observing equality with the
original value always reports 1), and it is the local-model provider itself
that clamps the temperature into [0.1, 1] when building its generation
request. -/
theorem c3_temperature_clamp_amended (t : ℚ) :
    (∀ botId query hist topK outcome,
      generateAnswer (tempProbeLLM t) botId query hist t topK outcome
        = .ok ⟨"", (retrieveRelevantChunks botId query topK outcome).map mkCitation, 1⟩) ∧
    1/10 ≤ (OllamaProvider.callOptions t).temperature ∧
    (OllamaProvider.callOptions t).temperature ≤ 1 := by
  refine ⟨?_, le_max_left _ _, max_le (by norm_num) (min_le_left _ _)⟩
  intro botId query hist topK outcome
  simp [generateAnswer, tempProbeLLM]

/-- A nonempty string: any string whose character data is a cons cell. -/
theorem ne_empty_of_length_pos {s : String} (h : 0 < s.length) : s ≠ "" := by
  intro he
  rw [he] at h
  simp at h

/-- The `From <filename>: <content>` block of one chunk has positive length. -/
theorem from_block_length_pos (f c : String) :
    0 < ("From " ++ f ++ ": " ++ c).length := by
  rw [String.length_append, String.length_append, String.length_append]
  have h5 : ("From ").length = 5 := rfl
  omega

/-- The joined context of a nonempty chunk list is never the empty string. -/
theorem ragContext_ne_empty (ch : RetrievedChunk) (rest : List RetrievedChunk) :
    ragContext (ch :: rest) ≠ "" := by
  unfold ragContext
  rw [List.map_cons]
  cases hr : rest.map (fun chunk => "From " ++ chunk.filename ++ ": " ++ chunk.content) with
  | nil =>
    simp only [jsJoin]
    exact ne_empty_of_length_pos (from_block_length_pos ch.filename ch.content)
  | cons a as =>
    simp only [jsJoin]
    apply ne_empty_of_length_pos
    rw [String.length_append, String.length_append]
    have := from_block_length_pos ch.filename ch.content
    omega

set_option maxRecDepth 40000 in
/-- C7: the system prompt is always the first provider message; with zero
retrieved chunks it is the fixed generic fallback text and can never equal the
context-embedding template (for any context); with at least one chunk it is
the context-embedding template around the `From <filename>: <content>` blocks
joined by blank lines. -/
theorem c7_system_prompt_selection (relevantChunks : List RetrievedChunk)
    (hist : List ChatMsg) (query : String) :
    (ragMessages relevantChunks hist query).head?
        = some ⟨"system", ragSystemPrompt relevantChunks⟩ ∧
    (relevantChunks = [] →
      ragSystemPrompt relevantChunks = fallbackSystemPrompt ∧
      ∀ context, ragSystemPrompt relevantChunks ≠ contextSystemPrompt context) ∧
    (relevantChunks ≠ [] →
      ragSystemPrompt relevantChunks
        = contextSystemPrompt
            (jsJoin "\n\n" (relevantChunks.map
              (fun chunk => "From " ++ chunk.filename ++ ": " ++ chunk.content)))) := by
  refine ⟨rfl, ?_, ?_⟩
  · intro hnil
    subst hnil
    have hfb : ragSystemPrompt [] = fallbackSystemPrompt := rfl
    refine ⟨hfb, ?_⟩
    intro context heq
    rw [hfb] at heq
    have h1 : jsIncludes (contextSystemPrompt context) "Context:" = true := by
      unfold jsIncludes contextSystemPrompt
      rw [decide_eq_true_iff]
      rw [String.data_append, String.data_append]
      have hpfx : ("Context:").data
          <:+: ("You are a helpful customer support assistant. Use the following context to answer the user\x27s question. Be specific and helpful.\n\nContext:\n").data := by
        decide
      rw [List.append_assoc]
      exact hpfx.trans ((List.prefix_append _ _).isInfix)
    have h2 : jsIncludes fallbackSystemPrompt "Context:" = false := by decide
    rw [heq] at h2
    rw [h1] at h2
    exact Bool.noConfusion h2
  · intro hne
    cases relevantChunks with
    | nil => exact absurd rfl hne
    | cons ch rest =>
      unfold ragSystemPrompt
      rw [if_neg (ragContext_ne_empty ch rest)]
      rfl

set_option maxRecDepth 40000 in
/-- Witness for C7: both branches at concrete chunk lists. -/
theorem c7_system_prompt_selection_witness :
    ragSystemPrompt [] = fallbackSystemPrompt ∧
    ragSystemPrompt [⟨"text", "a.txt", 0, none⟩]
      = contextSystemPrompt (jsJoin "\n\n" [("From " ++ "a.txt" ++ ": " ++ "text")]) := by
  constructor
  · exact ((c7_system_prompt_selection [] [] "q").2.1 rfl).1
  · exact (c7_system_prompt_selection [⟨"text", "a.txt", 0, none⟩] [] "q").2.2 (by decide)

/-- A keyword found (case-insensitively) in a suffix of a string is found in
the lowered form of any extension of that suffix to the left. -/
theorem jsIncludes_toLower_append (pre suffix kw : String)
    (h : jsIncludes (jsToLower suffix) kw = true) :
    jsIncludes (jsToLower (pre ++ suffix)) kw = true := by
  unfold jsIncludes jsToLower at h ⊢
  rw [decide_eq_true_iff] at h ⊢
  rw [String.data_append, List.map_append]
  exact h.trans (List.suffix_append _ _).isInfix

set_option maxRecDepth 40000 in
/-- C8: for every message list whose last message content ends with
`How much does shipping cost?`, the mock provider's generateCompletion is
independent of the temperature (identical results for any two temperatures)
and returns the fixed shipping-cost canned string. -/
theorem c8_mock_shipping_cost_deterministic (messages : List ChatMsg)
    (t₁ t₂ : ℚ) (last : ChatMsg) (pre : String)
    (hlast : messages.getLast? = some last)
    (hcontent : last.content = pre ++ "How much does shipping cost?") :
    MockLLMProvider.generateCompletion messages t₁
        = MockLLMProvider.generateCompletion messages t₂ ∧
    (MockLLMProvider.generateCompletion messages t₁).content
        = MockLLMProvider.shippingCostResponse := by
  refine ⟨rfl, ?_⟩
  have hne : pre ++ "How much does shipping cost?" ≠ "" := by
    apply ne_empty_of_length_pos
    rw [String.length_append]
    have h28 : ("How much does shipping cost?").length = 28 := rfl
    omega
  have hu : jsOrString (messages.getLast?.map ChatMsg.content) ""
      = pre ++ "How much does shipping cost?" := by
    rw [hlast]
    simp [jsOrString, hcontent, hne]
  have hship : jsIncludes (jsToLower (pre ++ "How much does shipping cost?")) "shipping"
      = true := jsIncludes_toLower_append pre _ _ (by decide)
  have hcost : jsIncludes (jsToLower (pre ++ "How much does shipping cost?")) "cost"
      = true := jsIncludes_toLower_append pre _ _ (by decide)
  simp [MockLLMProvider.generateCompletion,
    MockLLMProvider.generateContextAwareResponse, hu, hship, hcost]

set_option maxRecDepth 40000 in
/-- Witness for C8: the bare shipping-cost question at two temperatures. -/
theorem c8_mock_shipping_cost_deterministic_witness :
    (MockLLMProvider.generateCompletion
        [⟨"user", "How much does shipping cost?"⟩] 0).content
      = MockLLMProvider.shippingCostResponse :=
  (c8_mock_shipping_cost_deterministic [⟨"user", "How much does shipping cost?"⟩]
    0 1 ⟨"user", "How much does shipping cost?"⟩ "" rfl (by decide)).2

set_option maxRecDepth 100000 in
/-- C2 counterexample: the user query `hello` matches none of the mock
provider's topic keywords, yet generateCompletion on the message list whose
system prompt is the RAG fallback prompt (which contains `shipping`) returns
the canned general-shipping answer, not the generic acknowledgement, and the
response does not contain the query text. -/
theorem c2_mock_generic_ack_counterexample :
    (∀ kw ∈ mockTopicKeywords, jsIncludes (jsToLower "hello") kw = false) ∧
    (MockLLMProvider.generateCompletion
        [⟨"system", fallbackSystemPrompt⟩, ⟨"user", "hello"⟩] (3/10)).content
      = MockLLMProvider.shippingGeneralResponse ∧
    jsIncludes (MockLLMProvider.generateCompletion
        [⟨"system", fallbackSystemPrompt⟩, ⟨"user", "hello"⟩] (3/10)).content "hello"
      = false := by
  refine ⟨by decide, by decide, by decide⟩

set_option maxRecDepth 40000 in
/-- C2 amended: when the last message content matches none of the topic
keywords AND the first message content (the system prompt) contains none of
the context keywords the mock inspects, generateCompletion returns the generic
acknowledgement, which contains the original query text verbatim. -/
theorem c2_mock_generic_ack_amended (messages : List ChatMsg) (t : ℚ)
    (hUser : ∀ kw ∈ mockTopicKeywords,
      jsIncludes (jsToLower (jsOrString (messages.getLast?.map ChatMsg.content) "")) kw
        = false)
    (hSys : ∀ kw ∈ mockSystemKeywords,
      jsIncludes (jsOrString (messages.head?.map ChatMsg.content) "") kw = false) :
    (MockLLMProvider.generateCompletion messages t).content
        = MockLLMProvider.defaultResponse
            (jsOrString (messages.getLast?.map ChatMsg.content) "") ∧
    jsIncludes (MockLLMProvider.generateCompletion messages t).content
        (jsOrString (messages.getLast?.map ChatMsg.content) "") = true := by
  have h01 := hUser "shipping" (by decide)
  have h02 := hUser "delivery" (by decide)
  have h03 := hUser "return" (by decide)
  have h04 := hUser "refund" (by decide)
  have h05 := hUser "contact" (by decide)
  have h06 := hUser "phone" (by decide)
  have h07 := hUser "email" (by decide)
  have h08 := hUser "call" (by decide)
  have h09 := hUser "product" (by decide)
  have h10 := hUser "item" (by decide)
  have h11 := hUser "order" (by decide)
  have h12 := hUser "track" (by decide)
  have h13 := hUser "payment" (by decide)
  have h14 := hUser "pay" (by decide)
  have s01 := hSys "shipping" (by decide)
  have s02 := hSys "delivery" (by decide)
  have s03 := hSys "ship" (by decide)
  have s04 := hSys "return" (by decide)
  have s05 := hSys "refund" (by decide)
  have s06 := hSys "exchange" (by decide)
  have s07 := hSys "contact" (by decide)
  have s08 := hSys "phone" (by decide)
  have s09 := hSys "email" (by decide)
  have s10 := hSys "support" (by decide)
  have hmain : (MockLLMProvider.generateCompletion messages t).content
      = MockLLMProvider.defaultResponse
          (jsOrString (messages.getLast?.map ChatMsg.content) "") := by
    simp [MockLLMProvider.generateCompletion,
      MockLLMProvider.generateContextAwareResponse,
      h01, h02, h03, h04, h05, h06, h07, h08, h09, h10, h11, h12, h13, h14,
      s01, s02, s03, s04, s05, s06, s07, s08, s09, s10]
  refine ⟨hmain, ?_⟩
  rw [hmain]
  unfold MockLLMProvider.defaultResponse jsIncludes
  rw [decide_eq_true_iff]
  rw [String.data_append, String.data_append]
  exact List.infix_append _ _ _

/-- Witness for C2: a one-message list whose content matches no keyword. -/
theorem c2_mock_generic_ack_amended_witness :
    (MockLLMProvider.generateCompletion [⟨"user", "hello there"⟩] 0).content
      = MockLLMProvider.defaultResponse "hello there" :=
  (c2_mock_generic_ack_amended [⟨"user", "hello there"⟩] 0
    (by decide) (by decide)).1

/-- C10: getMessages takes the first rows in ascending creation order, so with
sorted rows every returned message is no newer than every message left out;
the chat mutation's conversation history is the projection of the first ten
rows; a freshly created user message (identifier absent from the rows the
history was read from) is never among the history's source rows; and the chat
mutation appends the new user and assistant rows after that history was built. -/
theorem c10_history_oldest_and_fresh (rows : List ChatService.StoredMessage)
    (n : Nat) (u : ChatService.StoredMessage) :
    ChatService.getMessages rows (some n) = rows.take n ∧
    (List.Pairwise (fun a b => a.createdAt ≤ b.createdAt) rows →
      ∀ a ∈ rows.take n, ∀ b ∈ rows.drop n, a.createdAt ≤ b.createdAt) ∧
    ChatResolver.chatConversationHistory rows
        = (rows.take 10).map (fun m => ⟨m.role, m.content⟩) ∧
    ((∀ m ∈ rows, m.id ≠ u.id) → u ∉ ChatService.getMessages rows (some 10)) ∧
    (∀ llm botId bt message topK outcome aid ta r rows',
      ChatResolver.chat llm botId bt rows message topK outcome u.id aid u.createdAt ta
          = .ok (r, rows') →
      rows' = rows ++ [⟨u.id, "user", message, none, u.createdAt⟩,
                       ⟨aid, "assistant", r.answer, some r.tokensUsed, ta⟩]) := by
  refine ⟨rfl, ?_, rfl, ?_, ?_⟩
  · intro hp a ha b hb
    have hp2 : List.Pairwise (fun a b => a.createdAt ≤ b.createdAt)
        (rows.take n ++ rows.drop n) := by
      rw [List.take_append_drop]
      exact hp
    exact (List.pairwise_append.mp hp2).2.2 a ha b hb
  · intro hfresh hmem
    exact hfresh u (List.take_subset 10 rows hmem) rfl
  · intro llm botId bt message topK outcome aid ta r rows' h
    simp only [ChatResolver.chat] at h
    cases hga : generateAnswer llm botId message (ChatResolver.chatConversationHistory rows)
        (ChatResolver.botTemperatureOrDefault bt) topK outcome with
    | error e => rw [hga] at h; exact absurd h (by simp)
    | ok result =>
      rw [hga] at h
      injection h with h2
      injection h2 with h3 h4
      subst h3
      subst h4
      simp

/-- Witness for C10: sortedness, freshness and the append shape at concrete
inputs. -/
theorem c10_history_oldest_and_fresh_witness :
    (∀ a ∈ tenMessages.take 3, ∀ b ∈ tenMessages.drop 3,
        a.createdAt ≤ b.createdAt) ∧
    ((⟨"fresh", "user", "hi", none, 99⟩ : ChatService.StoredMessage)
        ∉ ChatService.getMessages tenMessages (some 10)) ∧
    (([] ++ [(⟨"fresh", "user", "hi", none, 99⟩ : ChatService.StoredMessage)])
        ++ [⟨"a1", "assistant", "ans", some 7, 100⟩])
      = [] ++ [⟨"fresh", "user", "hi", none, 99⟩,
               ⟨"a1", "assistant", "ans", some 7, 100⟩] := by
  refine ⟨?_, ?_, ?_⟩
  · exact (c10_history_oldest_and_fresh tenMessages 3
      ⟨"fresh", "user", "hi", none, 99⟩).2.1 (by decide)
  · exact (c10_history_oldest_and_fresh tenMessages 10
      ⟨"fresh", "user", "hi", none, 99⟩).2.2.2.1 (by decide)
  · exact (c10_history_oldest_and_fresh [] 3
      ⟨"fresh", "user", "hi", none, 99⟩).2.2.2.2 okLLM "b" none "hi" 5 .err "a1" 100
      ⟨"ans", [], 7⟩ _ rfl
